import Mathlib

/-!
Shallow embedding of the Port/Process Inventory Resolver core of
`ports-info` (src/main.rs): the three-tier acquisition strategy
(`load_privileged_data`, `fallback_to_unprivileged`, `refresh_data`),
and the two output parsers (`parse_netstat_output`, `parse_ss_output`).

Conventions of the embedding:
* Rust `&str` values are Lean `String`s; the string helpers used by the
  parsers (`split_whitespace`, `lines`, `rsplitn(2, ':')`,
  `split_once('/')`, `u32::from_str`, `trim().is_empty()`,
  `to_lowercase` on ASCII tool output) are re-implemented below over
  `List Char`, following the Rust standard library semantics.
* A Rust panic (in particular an out-of-bounds `parts[i]` index) is
  modelled by the value `none` of an `Option` result; a function that
  can never return `none` corresponds to Rust code that cannot panic.
* The GUI is out of scope; the state the resolver mutates
  (`all_ports`, `is_root`, the warning banner, the error dialog) is an
  explicit `AppState` record, and the outcome of each external command
  invocation is an explicit `Env` record (`some stdout` when the
  command ran and exited successfully, `none` otherwise).
-/

/-- One observed listening/active endpoint: Rust `struct PortData`.
`pid : Option<u32>` is modelled as `Option Nat` (with the `u32` range
enforced by the parse function). -/
structure PortData where
  port : String
  pid : Option Nat
  name : String
  protocol : String
  local_ip : String
  foreign_address : String
  state : String
  recv_q : String
  send_q : String
deriving DecidableEq

/-- Rust `char::is_whitespace`: the Unicode White_Space property. -/
def rustIsWhitespace (c : Char) : Bool :=
  (9 ≤ c.val && c.val ≤ 13) || c.val = 32 || c.val = 0x85 || c.val = 0xA0 ||
  c.val = 0x1680 || (0x2000 ≤ c.val && c.val ≤ 0x200A) ||
  c.val = 0x2028 || c.val = 0x2029 || c.val = 0x202F || c.val = 0x205F ||
  c.val = 0x3000

/-- Accumulator worker for `splitWhitespace`; `acc` holds the current
word reversed. -/
def splitWhitespaceAux : List Char → List Char → List String
  | [], acc => if acc.isEmpty then [] else [String.mk acc.reverse]
  | c :: cs, acc =>
    if rustIsWhitespace c then
      if acc.isEmpty then splitWhitespaceAux cs []
      else String.mk acc.reverse :: splitWhitespaceAux cs []
    else splitWhitespaceAux cs (c :: acc)

/-- Rust `str::split_whitespace`: maximal non-whitespace runs, no empty
items. -/
def splitWhitespace (s : String) : List String :=
  splitWhitespaceAux s.toList []

/-- `str::split_inclusive('\n')` over char lists: each segment keeps its
terminating newline; an empty input yields no segments. -/
def splitInclNL : List Char → List Char → List (List Char)
  | [], acc => if acc.isEmpty then [] else [acc.reverse]
  | c :: cs, acc =>
    if c = '\n' then (c :: acc).reverse :: splitInclNL cs []
    else splitInclNL cs (c :: acc)

/-- The per-line map of Rust `str::lines`: strip one trailing `'\n'`,
and if one was stripped also strip one trailing `'\r'`. -/
def linesMap (l : List Char) : List Char :=
  match l.reverse with
  | '\n' :: rest =>
    match rest with
    | '\r' :: rest2 => rest2.reverse
    | _ => rest.reverse
  | _ => l

/-- Rust `str::lines`. -/
def rustLines (s : String) : List String :=
  (splitInclNL s.toList []).map (fun l => String.mk (linesMap l))

/-- Rust `line.trim().is_empty()`: true iff every char is whitespace. -/
def trimIsEmpty (s : String) : Bool :=
  s.toList.all rustIsWhitespace

/-- Rust `str::to_lowercase`, restricted to its ASCII action (the
protocol tokens it is applied to are ASCII). -/
def asciiToLower (s : String) : String :=
  String.mk (s.toList.map Char.toLower)

/-- Rust `str::starts_with` for a literal needle. -/
def strStarts (s pre : String) : Bool :=
  pre.toList.isPrefixOf s.toList

/-- Rust `s.rsplitn(2, ':')` as used by the parsers: the component
after the last `':'` (the whole string when no colon is present), and
the component before it (`none` when no colon is present). -/
def rsplitOnceColon (s : String) : String × Option String :=
  match (s.toList.reverse.span (fun c => c != ':')) with
  | (a, []) => (String.mk a.reverse, none)
  | (a, _ :: rest) => (String.mk a.reverse, some (String.mk rest.reverse))

/-- Rust `str::split_once('/')`: split at the first `'/'`. -/
def splitOnceSlash (s : String) : Option (String × String) :=
  match (s.toList.span (fun c => c != '/')) with
  | (_, []) => none
  | (a, _ :: rest) => some (String.mk a, String.mk rest)

/-- Rust `str::parse::<u32>()`: optional leading `'+'`, then one or
more ASCII digits, value below `2^32`. -/
def parseU32 (s : String) : Option Nat :=
  let cs :=
    match s.toList with
    | '+' :: rest => rest
    | cs => cs
  if cs.isEmpty then none
  else if cs.all Char.isDigit then
    let n := cs.foldl (fun acc c => acc * 10 + (c.toNat - 48)) 0
    if n < 4294967296 then some n else none
  else none

/-- The pid/name computation of `parse_netstat_output` (main.rs
lines 379-395), as a function of the privileged flag and the optional
owner token. -/
def netstatPidName (privileged : Bool) (pid_info : Option String) :
    Option Nat × String :=
  if privileged then
    match pid_info with
    | some pid_prog =>
      if pid_prog ≠ "-" then
        match splitOnceSlash pid_prog with
        | some (pid_str, prog_name) => (parseU32 pid_str, prog_name)
        | none => (parseU32 pid_prog, "Unknown")
      else (none, "Unknown")
    | none => (none, "Unknown")
  else (none, "Unknown (no privileges)")

/-- One loop iteration of `parse_netstat_output` (main.rs lines
363-413). Outer `none` models a panic; `some none` a skipped line;
`some (some r)` an emitted record. The direct indexings `parts[0]`,
`parts[3]`, `parts[4]` of the Rust code are modelled by `List.get?`
with `none` propagated as a panic. -/
def netstatLine (privileged : Bool) (line : String) :
    Option (Option PortData) :=
  if trimIsEmpty line then some none
  else
    let parts := splitWhitespace line
    if parts.length ≥ 4 then
      match parts.get? 0, parts.get? 3, parts.get? 4 with
      | some p0, some local_address, some foreign_address =>
        let protocol := asciiToLower p0
        let statePidInfo :=
          if strStarts protocol "tcp" then
            ((parts.get? 5).getD "unknown", parts.get? 6)
          else ("stateless", parts.get? 5)
        let pidName := netstatPidName privileged statePidInfo.2
        let port := (rsplitOnceColon local_address).1
        let local_ip := ((rsplitOnceColon local_address).2).getD "Any"
        some (some
          { port := port, pid := pidName.1, name := pidName.2,
            protocol := protocol, local_ip := local_ip,
            foreign_address := foreign_address, state := statePidInfo.1,
            recv_q := "0", send_q := "0" })
      | _, _, _ => none
    else some none

/-- One loop iteration of `parse_ss_output` (main.rs lines 421-449),
with the same conventions as `netstatLine`; the direct indexings are
`parts[0]`, `parts[1]` (tcp only) and `parts[4]`, while `parts.get(5)`
is an optional access defaulted to `"*:*"`. -/
def ssLine (line : String) : Option (Option PortData) :=
  if trimIsEmpty line then some none
  else
    let parts := splitWhitespace line
    if parts.length ≥ 5 then
      match parts.get? 0 with
      | none => none
      | some p0 =>
        let protocol := asciiToLower p0
        let stateOpt :=
          if strStarts protocol "tcp" then parts.get? 1
          else some "stateless"
        match stateOpt with
        | none => none
        | some state =>
          match parts.get? 4 with
          | none => none
          | some local_address =>
            let foreign_address := (parts.get? 5).getD "*:*"
            let port := (rsplitOnceColon local_address).1
            let local_ip := ((rsplitOnceColon local_address).2).getD "Any"
            some (some
              { port := port, pid := none,
                name := "Unknown (no privileges)", protocol := protocol,
                local_ip := local_ip, foreign_address := foreign_address,
                state := state, recv_q := "0", send_q := "0" })
    else some none

/-- Runs a per-line function over the remaining lines, collecting the
emitted records in order and propagating a panic (`none`). -/
def collectRecords (f : String → Option (Option PortData)) :
    List String → Option (List PortData)
  | [] => some []
  | l :: ls =>
    match f l, collectRecords f ls with
    | some r, some rest =>
      some (match r with
            | some d => d :: rest
            | none => rest)
    | _, _ => none

/-- Rust `parse_netstat_output` (main.rs lines 355-416): skips two
header lines, then parses each line. (The `sysinfo::System` value it
creates is never read during parsing and is omitted.) The returned
record list is what `self.all_ports.replace(ports)` stores. -/
def parse_netstat_output (output : String) (privileged : Bool) :
    Option (List PortData) :=
  collectRecords (netstatLine privileged) ((rustLines output).drop 2)

/-- Rust `parse_ss_output` (main.rs lines 418-453): skips one header
line, then parses each line. -/
def parse_ss_output (output : String) : Option (List PortData) :=
  collectRecords ssLine ((rustLines output).drop 1)

/-- The resolver-visible state of `PortMonitorWindow`: the inventory,
the privilege flag, the warning banner and whether an error dialog was
presented (with its body text). -/
structure AppState where
  all_ports : List PortData
  is_root : Bool
  warning_banner_revealed : Bool
  error_dialog : Option String
deriving DecidableEq

/-- Outcome of the three external command invocations: `some stdout`
models `Ok(output)` with `output.status.success()`; `none` models a
spawn error, a declined elevation, or a non-zero exit. -/
structure Env where
  pkexec_netstat : Option String
  ss_tuan : Option String
  netstat_tun : Option String
deriving DecidableEq

/-- The error message of main.rs line 221. -/
def acquisitionFailedMsg : String :=
  "Failed to get port information. Neither ss nor netstat commands are available."

/-- Rust `fallback_to_unprivileged` (main.rs lines 198-222): sets
`is_root` to false and reveals the banner, then tries `ss -tuan`, then
`netstat -tun`, and shows the error dialog when both fail. `none`
models a parser panic. -/
def fallback_to_unprivileged (env : Env) (st : AppState) :
    Option AppState :=
  let st := { st with is_root := false, warning_banner_revealed := true }
  match env.ss_tuan with
  | some out =>
    match parse_ss_output out with
    | some ports => some { st with all_ports := ports }
    | none => none
  | none =>
    match env.netstat_tun with
    | some out =>
      match parse_netstat_output out false with
      | some ports => some { st with all_ports := ports }
      | none => none
    | none => some { st with error_dialog := some acquisitionFailedMsg }

/-- Rust `load_privileged_data` (main.rs lines 179-196): runs
`pkexec netstat -plntu`; on success sets `is_root := true`, hides the
banner and parses privileged; otherwise falls back. -/
def load_privileged_data (env : Env) (st : AppState) : Option AppState :=
  match env.pkexec_netstat with
  | some out =>
    let st := { st with is_root := true, warning_banner_revealed := false }
    match parse_netstat_output out true with
    | some ports => some { st with all_ports := ports }
    | none => none
  | none => fallback_to_unprivileged env st

/-- Rust `refresh_data` (main.rs lines 224-230). -/
def refresh_data (env : Env) (st : AppState) : Option AppState :=
  if st.is_root then load_privileged_data env st
  else fallback_to_unprivileged env st

/-! ### Helper lemmas about the line collector -/

/-- Every record in a successful parse comes from some line the per-line
function emitted. -/
theorem collectRecords_mem {f : String → Option (Option PortData)} :
    ∀ {ls : List String} {res : List PortData} {r : PortData},
      collectRecords f ls = some res → r ∈ res →
      ∃ line, line ∈ ls ∧ f line = some (some r) := by
  intro ls
  induction ls with
  | nil =>
    intro res r h hr
    simp only [collectRecords, Option.some.injEq] at h
    subst h
    cases hr
  | cons l ls ih =>
    intro res r h hr
    unfold collectRecords at h
    cases hfl : f l with
    | none => rw [hfl] at h; exact absurd h (by simp)
    | some o =>
      rw [hfl] at h
      cases hrec : collectRecords f ls with
      | none => rw [hrec] at h; exact absurd h (by simp)
      | some rest =>
        rw [hrec] at h
        cases o with
        | none =>
          simp only [Option.some.injEq] at h
          subst h
          obtain ⟨line, hl, he⟩ := ih hrec hr
          exact ⟨line, List.mem_cons_of_mem _ hl, he⟩
        | some d =>
          simp only [Option.some.injEq] at h
          subst h
          rcases List.mem_cons.mp hr with hd | htl
          · exact ⟨l, List.mem_cons_self _ _, by rw [hfl, hd]⟩
          · obtain ⟨line, hl, he⟩ := ih hrec htl
            exact ⟨line, List.mem_cons_of_mem _ hl, he⟩

/-- If no line can panic, the whole collection cannot panic. -/
theorem collectRecords_isSome {f : String → Option (Option PortData)}
    (hf : ∀ l, (f l).isSome = true) :
    ∀ ls : List String, (collectRecords f ls).isSome = true := by
  intro ls
  induction ls with
  | nil => rfl
  | cons l ls ih =>
    unfold collectRecords
    cases hfl : f l with
    | none =>
      have hl := hf l
      rw [hfl] at hl
      exact absurd hl (by simp)
    | some o =>
      cases hrec : collectRecords f ls with
      | none => rw [hrec] at ih; exact absurd ih (by simp)
      | some rest => cases o <;> rfl

/-! ### Per-line facts about the parsers -/

/-- Every record the ss per-line function emits has an absent pid, the
unprivileged name, and state `stateless` when its protocol does not
begin with `tcp`. -/
theorem ssLine_emitted {line : String} {r : PortData}
    (h : ssLine line = some (some r)) :
    r.pid = none ∧ r.name = "Unknown (no privileges)" ∧
    (strStarts r.protocol "tcp" = false → r.state = "stateless") := by
  unfold ssLine at h
  split at h
  · exact absurd h (by simp)
  · simp only [] at h
    split at h
    · split at h
      · exact absurd h (by simp)
      · split at h
        · exact absurd h (by simp)
        · split at h
          · exact absurd h (by simp)
          · simp only [Option.some.injEq] at h
            subst h
            refine ⟨rfl, rfl, ?_⟩
            intro hp
            dsimp only at hp
            rename_i x2 p0 hget0 x1 st hstate x0 la hget4
            rw [hp] at hstate
            simp only [Bool.false_eq_true, if_false, Option.some.injEq] at hstate
            exact hstate.symm
    · exact absurd h (by simp)

/-- Every record the netstat per-line function emits has an absent pid
and the unprivileged name when `privileged` is false, and state
`stateless` when its protocol does not begin with `tcp`. -/
theorem netstatLine_emitted {priv : Bool} {line : String} {r : PortData}
    (h : netstatLine priv line = some (some r)) :
    (priv = false → r.pid = none ∧ r.name = "Unknown (no privileges)") ∧
    (strStarts r.protocol "tcp" = false → r.state = "stateless") := by
  unfold netstatLine at h
  split at h
  · exact absurd h (by simp)
  simp only [] at h
  split at h
  · split at h
    · simp only [Option.some.injEq] at h
      subst h
      constructor
      · intro hpriv
        subst hpriv
        exact ⟨rfl, rfl⟩
      · intro hp
        dsimp only at hp
        simp [hp]
    · exact absurd h (by simp)
  · exact absurd h (by simp)

/-- A list index strictly below the length yields a value. -/
theorem get?_isSome_of_lt {l : List String} {n : Nat} (h : n < l.length) :
    ∃ x, l.get? n = some x :=
  ⟨l.get ⟨n, h⟩, List.get?_eq_get h⟩

/-- The ss per-line function never panics: every direct index it reads
is below the field-count guard of 5. -/
theorem ssLine_isSome (line : String) : (ssLine line).isSome = true := by
  unfold ssLine
  split
  · rfl
  · simp only []
    split
    case isTrue hlen =>
      obtain ⟨p0, hp0⟩ :=
        get?_isSome_of_lt (l := splitWhitespace line) (n := 0) (by omega)
      simp only [hp0]
      by_cases ht : strStarts (asciiToLower p0) "tcp"
      · obtain ⟨s1, hs1⟩ :=
          get?_isSome_of_lt (l := splitWhitespace line) (n := 1) (by omega)
        obtain ⟨la, hla⟩ :=
          get?_isSome_of_lt (l := splitWhitespace line) (n := 4) (by omega)
        simp only [ht, if_true, hs1, hla]
        rfl
      · obtain ⟨la, hla⟩ :=
          get?_isSome_of_lt (l := splitWhitespace line) (n := 4) (by omega)
        simp only [ht, if_false, hla]
        rfl
    case isFalse hlen => rfl

/-- The privileged flag influences only the pid and the name: the
foreign-address column of the netstat per-line result is the same for
both flag values (skips and panics also coincide). -/
theorem netstatLine_foreign_indep (line : String) :
    (netstatLine false line).map (Option.map PortData.foreign_address) =
    (netstatLine true line).map (Option.map PortData.foreign_address) := by
  unfold netstatLine
  by_cases h1 : trimIsEmpty line
  · simp [h1]
  · simp only [h1, Bool.false_eq_true, if_false]
    by_cases h2 : (splitWhitespace line).length ≥ 4
    · simp only [h2, if_true]
      cases h0 : (splitWhitespace line).get? 0 <;>
        cases h3 : (splitWhitespace line).get? 3 <;>
          cases h4 : (splitWhitespace line).get? 4 <;>
            simp [h0, h3, h4]
    · simp [h2]

/-- `String.mk` is inverse to `String.toList`. -/
theorem string_mk_toList (s : String) : String.mk s.toList = s := by
  cases s
  rfl

/-- `takeWhile`/`dropWhile` across a block of satisfying elements
followed by a failing element. -/
theorem takeWhile_dropWhile_block {p : Char → Bool} :
    ∀ (a : List Char) (c0 : Char) (b : List Char),
      (∀ x ∈ a, p x = true) → p c0 = false →
      (a ++ c0 :: b).takeWhile p = a ∧ (a ++ c0 :: b).dropWhile p = c0 :: b := by
  intro a
  induction a with
  | nil =>
    intro c0 b _ hc
    simp [List.takeWhile_cons, List.dropWhile_cons, hc]
  | cons x xs ih =>
    intro c0 b ha hc
    have hx : p x = true := ha x (by simp)
    have hrec := ih c0 b (fun y hy => ha y (by simp [hy])) hc
    simp [List.takeWhile_cons, List.dropWhile_cons, hx, hrec.1, hrec.2]

/-- When the field contains no colon, `rsplitn(2, ':')` leaves it whole:
the port becomes the entire field and the ip prefix is absent. -/
theorem rsplitOnceColon_no_colon {s : String} (h : ':' ∉ s.toList) :
    rsplitOnceColon s = (s, none) := by
  unfold rsplitOnceColon
  have hall : ∀ x ∈ s.toList.reverse, (x != ':') = true := by
    intro x hx
    simp only [List.mem_reverse] at hx
    simp [bne_iff_ne]
    intro hcontra
    exact h (hcontra ▸ hx)
  have hspan : s.toList.reverse.span (fun c => c != ':') = (s.toList.reverse, []) := by
    rw [List.span_eq_take_drop]
    rw [List.takeWhile_eq_self_iff.mpr hall, List.dropWhile_eq_nil_iff.mpr hall]
  rw [hspan]
  simp [string_mk_toList]

/-- Splitting at the rightmost colon: when the suffix after a colon has
no further colon, the port is exactly that suffix and the prefix is
everything before the colon. -/
theorem rsplitOnceColon_split (preL postL : List Char) (h : ':' ∉ postL) :
    rsplitOnceColon (String.mk (preL ++ ':' :: postL)) =
      (String.mk postL, some (String.mk preL)) := by
  unfold rsplitOnceColon
  have hrev : (String.mk (preL ++ ':' :: postL)).toList.reverse =
      postL.reverse ++ ':' :: preL.reverse := by
    show (preL ++ ':' :: postL).reverse = postL.reverse ++ ':' :: preL.reverse
    rw [List.reverse_append, List.reverse_cons, List.append_assoc]
    simp
  have hall : ∀ x ∈ postL.reverse, (x != ':') = true := by
    intro x hx
    simp only [List.mem_reverse] at hx
    simp [bne_iff_ne]
    intro hcontra
    exact h (hcontra ▸ hx)
  have hblock := takeWhile_dropWhile_block postL.reverse ':' preL.reverse hall (by simp)
  rw [hrev, List.span_eq_take_drop, hblock.1, hblock.2]
  simp

/-- Whatever the unprivileged fallback does — parse ss, parse legacy
netstat, or show the error dialog — any state it returns has
`is_root = false`. -/
theorem fallback_to_unprivileged_is_root {env : Env} {st st' : AppState}
    (h : fallback_to_unprivileged env st = some st') :
    st'.is_root = false := by
  unfold fallback_to_unprivileged at h
  cases hss : env.ss_tuan with
  | some out =>
    rw [hss] at h
    dsimp only at h
    cases hp : parse_ss_output out with
    | some ports =>
      rw [hp] at h
      dsimp only at h
      simp only [Option.some.injEq] at h
      subst h
      rfl
    | none => rw [hp] at h; exact absurd h (by simp)
  | none =>
    rw [hss] at h
    dsimp only at h
    cases hns : env.netstat_tun with
    | some out =>
      rw [hns] at h
      dsimp only at h
      cases hp : parse_netstat_output out false with
      | some ports =>
        rw [hp] at h
        dsimp only at h
        simp only [Option.some.injEq] at h
        subst h
        rfl
      | none => rw [hp] at h; exact absurd h (by simp)
    | none =>
      rw [hns] at h
      dsimp only at h
      simp only [Option.some.injEq] at h
      subst h
      rfl

/-- C2: if all three acquisition tiers fail, `refresh_data` reports the
acquisition failure through the error dialog and the inventory
(`all_ports`) equals its pre-call value exactly. -/
theorem claim_C2_refresh_failure_preserves_inventory
    (env : Env) (st : AppState)
    (h1 : env.pkexec_netstat = none) (h2 : env.ss_tuan = none)
    (h3 : env.netstat_tun = none) :
    ∃ st', refresh_data env st = some st' ∧
      st'.all_ports = st.all_ports ∧
      st'.error_dialog = some acquisitionFailedMsg := by
  refine ⟨{ st with
              is_root := false
              warning_banner_revealed := true
              error_dialog := some acquisitionFailedMsg }, ?_, rfl, rfl⟩
  unfold refresh_data load_privileged_data fallback_to_unprivileged
  rw [h1, h2, h3]
  by_cases hr : st.is_root <;> simp [hr]

/-- Witness for C2 at a concrete environment and state. -/
theorem claim_C2_witness :
    ∃ st', refresh_data ⟨none, none, none⟩ ⟨[], true, false, none⟩ = some st' ∧
      st'.all_ports = ([] : List PortData) ∧
      st'.error_dialog = some acquisitionFailedMsg :=
  claim_C2_refresh_failure_preserves_inventory ⟨none, none, none⟩
    ⟨[], true, false, none⟩ rfl rfl rfl

/-- C4 counterexample: starting from a state with `is_root = true`, a
refresh in which every acquisition tier fails (no tier succeeds) still
changes the flag to `false` — `fallback_to_unprivileged` clears it
before attempting any unprivileged tier. -/
theorem claim_C4_counterexample :
    (refresh_data ⟨none, none, none⟩ ⟨[], true, false, none⟩).map AppState.is_root =
      some false ∧
    (⟨[], true, false, none⟩ : AppState).is_root = true := by decide

/-- C4 amended: `is_root` is set to true exactly when the privileged
tier succeeds; entering the unprivileged fallback immediately sets it
false regardless of whether any unprivileged tier succeeds, so after
any completed refresh the flag equals
`st.is_root && pkexec-succeeded`. -/
theorem claim_C4_amended_is_root_update (env : Env) (st st' : AppState)
    (h : refresh_data env st = some st') :
    st'.is_root = (st.is_root && env.pkexec_netstat.isSome) := by
  unfold refresh_data at h
  by_cases hr : st.is_root
  · rw [if_pos hr] at h
    rw [hr, Bool.true_and]
    unfold load_privileged_data at h
    cases hpk : env.pkexec_netstat with
    | some out =>
      rw [hpk] at h
      dsimp only at h
      simp only [Option.isSome_some]
      cases hp : parse_netstat_output out true with
      | some ports =>
        rw [hp] at h
        dsimp only at h
        simp only [Option.some.injEq] at h
        subst h
        rfl
      | none => rw [hp] at h; exact absurd h (by simp)
    | none =>
      rw [hpk] at h
      dsimp only at h
      simp only [Option.isSome_none]
      exact fallback_to_unprivileged_is_root h
  · rw [if_neg hr] at h
    have hr' : st.is_root = false := by
      revert hr
      cases st.is_root <;> simp
    rw [hr', Bool.false_and]
    exact fallback_to_unprivileged_is_root h

/-- Witness for the amended C4 at a concrete environment and state. -/
theorem claim_C4_witness :
    (⟨[], false, true, some acquisitionFailedMsg⟩ : AppState).is_root =
      ((⟨[], true, false, none⟩ : AppState).is_root &&
        (Env.pkexec_netstat ⟨none, none, none⟩).isSome) :=
  claim_C4_amended_is_root_update ⟨none, none, none⟩ ⟨[], true, false, none⟩
    ⟨[], false, true, some acquisitionFailedMsg⟩ (by decide)

/-- C7: a manual refresh replays the last successful tier first — when
`is_root` is true it re-runs the privileged path exactly as a
first-time acquisition (`load_privileged_data`), falling through to
the unprivileged tiers only when the privileged command fails; when
`is_root` is false the privileged command is never attempted (the
result does not depend on its outcome) and acquisition starts at the
unprivileged tiers. -/
theorem claim_C7_refresh_replays_last_tier (env : Env) (st : AppState) :
    (st.is_root = true → refresh_data env st = load_privileged_data env st) ∧
    (st.is_root = true → env.pkexec_netstat = none →
      refresh_data env st = fallback_to_unprivileged env st) ∧
    (st.is_root = false → ∀ pk,
      refresh_data env st =
        fallback_to_unprivileged ⟨pk, env.ss_tuan, env.netstat_tun⟩ st) := by
  refine ⟨?_, ?_, ?_⟩
  · intro hr
    unfold refresh_data
    rw [if_pos hr]
  · intro hr hpk
    unfold refresh_data load_privileged_data
    rw [if_pos hr, hpk]
  · intro hr pk
    unfold refresh_data
    rw [if_neg (by simp [hr])]
    obtain ⟨pk0, ss, ns⟩ := env
    rfl

/-- Witness for C7 at a concrete environment and state. -/
theorem claim_C7_witness :
    refresh_data ⟨some "out", some "o2", none⟩ ⟨[], false, true, none⟩ =
      fallback_to_unprivileged ⟨none, some "o2", none⟩ ⟨[], false, true, none⟩ :=
  (claim_C7_refresh_replays_last_tier ⟨some "out", some "o2", none⟩
    ⟨[], false, true, none⟩).2.2 rfl none

/-- C1: the netstat parser panics (index out of bounds) on a line with
exactly four whitespace-separated fields — the field-count guard is
`>= 4` but column 4 (the fifth field, the foreign address) is indexed
unconditionally, so such a malformed line is neither skipped nor
survived, in either privilege mode. `none` is the embedding's panic
value. -/
theorem claim_C1_netstat_panics_on_four_field_line :
    parse_netstat_output "h1\nh2\ntcp 0 0 127.0.0.1:80\n" true = none ∧
    parse_netstat_output "h1\nh2\ntcp 0 0 127.0.0.1:80\n" false = none ∧
    (splitWhitespace "tcp 0 0 127.0.0.1:80").length = 4 ∧
    (parse_ss_output "h1\ntcp 0 0 127.0.0.1:80\n").isSome = true := by decide

/-- C3: every record produced by an unprivileged parse — the ss parser,
or the netstat parser with `privileged = false` — has an absent pid and
the name `"Unknown (no privileges)"`, independently of any owner token
in the input. -/
theorem claim_C3_unprivileged_no_ownership (output : String) (r : PortData) :
    ((∃ l, parse_ss_output output = some l ∧ r ∈ l) →
      r.pid = none ∧ r.name = "Unknown (no privileges)") ∧
    ((∃ l, parse_netstat_output output false = some l ∧ r ∈ l) →
      r.pid = none ∧ r.name = "Unknown (no privileges)") := by
  constructor
  · rintro ⟨l, hl, hr⟩
    unfold parse_ss_output at hl
    obtain ⟨line, _, he⟩ := collectRecords_mem hl hr
    have hrec := ssLine_emitted he
    exact ⟨hrec.1, hrec.2.1⟩
  · rintro ⟨l, hl, hr⟩
    unfold parse_netstat_output at hl
    obtain ⟨line, _, he⟩ := collectRecords_mem hl hr
    exact (netstatLine_emitted he).1 rfl

/-- The record the ss parser emits for a listening tcp socket line; the
owner-looking token in the input line is ignored. -/
def ssRec22 : PortData :=
  ⟨"22", none, "Unknown (no privileges)", "tcp", "0.0.0.0", "*:*", "LISTEN", "0", "0"⟩

/-- Witness for C3 at a concrete ss output. -/
theorem claim_C3_witness :
    ssRec22.pid = none ∧ ssRec22.name = "Unknown (no privileges)" :=
  (claim_C3_unprivileged_no_ownership
      "Netid State Recv-Q Send-Q Local Peer\ntcp LISTEN 0 128 0.0.0.0:22 *:*\n"
      ssRec22).1
    ⟨[ssRec22], by decide, by decide⟩

/-- C9: every emitted record whose protocol does not begin with `tcp`
has state `"stateless"`, in both parsers, whatever any state-like
column contained. -/
theorem claim_C9_non_tcp_stateless (output : String) (priv : Bool) (r : PortData) :
    ((∃ l, parse_netstat_output output priv = some l ∧ r ∈ l) →
      strStarts r.protocol "tcp" = false → r.state = "stateless") ∧
    ((∃ l, parse_ss_output output = some l ∧ r ∈ l) →
      strStarts r.protocol "tcp" = false → r.state = "stateless") := by
  constructor
  · rintro ⟨l, hl, hr⟩ hp
    unfold parse_netstat_output at hl
    obtain ⟨line, _, he⟩ := collectRecords_mem hl hr
    exact (netstatLine_emitted he).2 hp
  · rintro ⟨l, hl, hr⟩ hp
    unfold parse_ss_output at hl
    obtain ⟨line, _, he⟩ := collectRecords_mem hl hr
    exact (ssLine_emitted he).2.2 hp

/-- The record the netstat parser emits for a udp line that carries
`UNCONN` in its state-looking column: the column is ignored. -/
def udpRec68 : PortData :=
  ⟨"68", some 552, "dhclient", "udp", "0.0.0.0", "0.0.0.0:*", "stateless", "0", "0"⟩

/-- Witness for C9: a privileged udp netstat line whose column 5 holds
a state-looking token still comes out stateless. -/
theorem claim_C9_witness : udpRec68.state = "stateless" :=
  (claim_C9_non_tcp_stateless
      "h1\nh2\nudp 0 0 0.0.0.0:68 0.0.0.0:* 552/dhclient\n" true udpRec68).1
    ⟨[udpRec68], by decide, by decide⟩ (by decide)

/-- C10: the ss parser is total — on every input it returns a record
list without panicking (every direct field index is below the
field-count guard of 5) — and every line with fewer than 5
whitespace-separated fields, blank lines included, is skipped. -/
theorem claim_C10_ss_parser_total (s line : String) :
    (parse_ss_output s).isSome = true ∧
    ((splitWhitespace line).length < 5 → ssLine line = some none) := by
  constructor
  · unfold parse_ss_output
    exact collectRecords_isSome ssLine_isSome _
  · intro hlen
    unfold ssLine
    split
    · rfl
    · simp only []
      rw [if_neg (by omega)]

/-- Witness for C10 at a concrete input and a three-field line. -/
theorem claim_C10_witness :
    (splitWhitespace "udp UNCONN 0").length < 5 ∧
    ssLine "udp UNCONN 0" = some none :=
  ⟨by decide,
   (claim_C10_ss_parser_total "x" "udp UNCONN 0").2 (by decide)⟩

/-- C8: owner-token decomposition in privileged netstat mode — `-`
yields an absent pid and name `Unknown`; a token with a `/` is split at
the first `/`, the left side parsed as the numeric pid (parse failure
makes the pid absent) and the right side taken as the name; a token
without `/` is parsed entirely as the pid with name `Unknown`; in
particular `1234/sshd` yields pid 1234 and name `sshd` end to end. -/
theorem claim_C8_owner_token_decomposition (tok pl pr : String) :
    netstatPidName true (some "-") = (none, "Unknown") ∧
    (tok ≠ "-" → splitOnceSlash tok = some (pl, pr) →
      netstatPidName true (some tok) = (parseU32 pl, pr)) ∧
    (tok ≠ "-" → splitOnceSlash tok = none →
      netstatPidName true (some tok) = (parseU32 tok, "Unknown")) ∧
    splitOnceSlash "12/34/ab" = some ("12", "34/ab") ∧
    parseU32 "1234" = some 1234 ∧
    parse_netstat_output
        "h1\nh2\ntcp 0 0 127.0.0.1:22 0.0.0.0:* LISTEN 1234/sshd\n" true =
      some [⟨"22", some 1234, "sshd", "tcp", "127.0.0.1", "0.0.0.0:*",
             "LISTEN", "0", "0"⟩] := by
  refine ⟨by decide, ?_, ?_, by decide, by decide, by decide⟩
  · intro h1 h2
    simp [netstatPidName, h1, h2]
  · intro h1 h2
    simp [netstatPidName, h1, h2]

/-- Witness for C8: the `pid/name` split rule applied at a concrete
token whose pid part does not parse. -/
theorem claim_C8_witness :
    netstatPidName true (some "abc/def") = (parseU32 "abc", "def") :=
  (claim_C8_owner_token_decomposition "abc/def" "abc" "def").2.1
    (by decide) (by decide)

/-- C5 counterexample: the claim fails on the code in two places. For
the local address `:80` the emitted `local_ip` is the empty string, not
the wildcard token (`"Any"` is substituted only when no colon exists at
all); and for a local-address field with no colon the emitted port is
the whole field, not empty. -/
theorem claim_C5_counterexample :
    (parse_ss_output
        "Netid State Recv-Q Send-Q Local Peer\ntcp LISTEN 0 128 :80 *:*\n").map
      (List.map PortData.local_ip) = some [""] ∧
    "" ≠ "Any" ∧
    (parse_ss_output "h\nudp UNCONN 0 0 12345\n").map (List.map PortData.port) =
      some ["12345"] ∧
    "12345" ≠ "" := by decide

/-- C5 amended: the local-address field is split on the rightmost `:`,
the last segment becoming port and everything before it local_ip;
`"127.0.0.1:8080"` yields `("127.0.0.1", "8080")`; `":80"` yields
port `"80"` with local_ip the empty string (not the wildcard token);
when the field contains no colon, the whole field becomes the port
(so the port is not empty unless the field is) and local_ip is the
wildcard token `"Any"`; in every case the record is still emitted. -/
theorem claim_C5_amended_address_split (la : String) (preL postL : List Char)
    (hnc : ':' ∉ la.toList) (hpost : ':' ∉ postL) :
    rsplitOnceColon "127.0.0.1:8080" = ("8080", some "127.0.0.1") ∧
    rsplitOnceColon ":80" = ("80", some "") ∧
    rsplitOnceColon la = (la, none) ∧
    rsplitOnceColon (String.mk (preL ++ ':' :: postL)) =
      (String.mk postL, some (String.mk preL)) ∧
    parse_ss_output "h\ntcp LISTEN 0 128 :80 *:*\n" =
      some [⟨"80", none, "Unknown (no privileges)", "tcp", "", "*:*",
             "LISTEN", "0", "0"⟩] ∧
    parse_ss_output "h\nudp UNCONN 0 0 12345\n" =
      some [⟨"12345", none, "Unknown (no privileges)", "udp", "Any", "*:*",
             "stateless", "0", "0"⟩] :=
  ⟨by decide, by decide, rsplitOnceColon_no_colon hnc,
   rsplitOnceColon_split preL postL hpost, by decide, by decide⟩

/-- Witness for the amended C5 at concrete address fields. -/
theorem claim_C5_witness :
    rsplitOnceColon "noport" = ("noport", none) ∧
    rsplitOnceColon (String.mk (['1'] ++ ':' :: ['8', '0'])) =
      (String.mk ['8', '0'], some (String.mk ['1'])) :=
  ⟨(claim_C5_amended_address_split "noport" ['1'] ['8', '0']
      (by decide) (by decide)).2.2.1,
   (claim_C5_amended_address_split "noport" ['1'] ['8', '0']
      (by decide) (by decide)).2.2.2.1⟩

/-- Lifts a per-line agreement of the foreign-address projection to the
whole collection. -/
theorem collectRecords_foreign_congr
    {f g : String → Option (Option PortData)}
    (hfg : ∀ l, (f l).map (Option.map PortData.foreign_address) =
        (g l).map (Option.map PortData.foreign_address)) :
    ∀ ls, (collectRecords f ls).map (List.map PortData.foreign_address) =
        (collectRecords g ls).map (List.map PortData.foreign_address) := by
  intro ls
  induction ls with
  | nil => rfl
  | cons l ls ih =>
    unfold collectRecords
    have h := hfg l
    cases hf : f l with
    | none =>
      rw [hf] at h
      cases hg : g l with
      | none => rfl
      | some o => rw [hg] at h; exact absurd h (by simp)
    | some o =>
      rw [hf] at h
      cases hg : g l with
      | none => rw [hg] at h; exact absurd h (by simp)
      | some o' =>
        rw [hg] at h
        simp only [Option.map_some', Option.some.injEq] at h
        cases hcf : collectRecords f ls with
        | none =>
          rw [hcf] at ih
          cases hcg : collectRecords g ls with
          | none => cases o <;> cases o' <;> rfl
          | some rest' =>
            rw [hcg] at ih
            exact absurd ih (by simp)
        | some rest =>
          rw [hcf] at ih
          cases hcg : collectRecords g ls with
          | none =>
            rw [hcg] at ih
            exact absurd ih (by simp)
          | some rest' =>
            rw [hcg] at ih
            simp only [Option.map_some', Option.some.injEq] at ih
            cases o with
            | none =>
              cases o' with
              | none => simp [ih]
              | some d' => exact absurd h (by simp)
            | some d =>
              cases o' with
              | none => exact absurd h (by simp)
              | some d' =>
                simp only [Option.map_some', Option.some.injEq] at h
                simp [ih, h]

/-- C6 counterexample: in the legacy unprivileged format, the emitted
`foreign_address` is not a "not applicable" marker — it is the content
of column 4, here a concrete remote endpoint. -/
theorem claim_C6_counterexample :
    (parse_netstat_output
        "h1\nh2\ntcp 0 0 1.2.3.4:22 5.6.7.8:33 ESTABLISHED\n" false).map
      (List.map PortData.foreign_address) = some ["5.6.7.8:33"] ∧
    "5.6.7.8:33" ≠ "*:*" ∧ "5.6.7.8:33" ≠ "-" := by decide

/-- C6 amended: in the legacy unprivileged format the foreign_address
of each emitted record is taken from column 4 of its line, exactly as
in privileged mode — the foreign-address projection of the parse
result does not depend on the privileged flag at all. -/
theorem claim_C6_amended_foreign_column_four (output : String) :
    (parse_netstat_output output false).map (List.map PortData.foreign_address) =
      (parse_netstat_output output true).map (List.map PortData.foreign_address) ∧
    (parse_netstat_output
        "h1\nh2\ntcp 0 0 1.2.3.4:22 9.9.9.9:1 ESTABLISHED\n" false).map
      (List.map PortData.foreign_address) = some ["9.9.9.9:1"] := by
  constructor
  · unfold parse_netstat_output
    exact collectRecords_foreign_congr netstatLine_foreign_indep _
  · decide
